import Mathlib

/-!
Verification of the scrape-and-normalize pipeline of `src/main.rs`
(Schwebebahn disruption status republisher).

The Rust program fetches one HTML page, extracts traffic-information rows,
parses them into a typed snapshot, and republishes the snapshot over HTTP,
refreshing only while a client polled recently.  This file gives a shallow
embedding of that program: strings are Lean `String`s (reasoned about through
their `data : List Char`), timestamps are `Int` seconds, HTML rows and the
id-keyed info panels are explicit data, and the scraper library's selector
queries are modelled as the row fields they would return.  Machine behaviour
that can abort (the `.unwrap()` on a runtime-built selector) is modelled with
`Option`, `none` standing for a panic.
-/

/-- Rust's `str::trim` on a list of characters: drop whitespace from both
ends.  (`Char.isWhitespace` covers the ASCII whitespace that occurs in the
scraped page; Rust additionally trims rarer Unicode white space.) -/
def trimChars (l : List Char) : List Char :=
  ((l.dropWhile Char.isWhitespace).reverse.dropWhile Char.isWhitespace).reverse

/-- Rust's `str::trim` transported to `String`. -/
def trimS (s : String) : String :=
  String.mk (trimChars s.data)

/-- Whether the list starts with the literal separator token `"bis"`
(the pattern of `period.split("bis")` in `parse_period`). -/
def isBisAt : List Char → Bool
  | b :: i :: s :: _ => b == 'b' && i == 'i' && s == 's'
  | _ => false

/-- Whether the literal token `"bis"` occurs anywhere in the list. -/
def hasBis : List Char → Bool
  | [] => false
  | c :: rest => isBisAt (c :: rest) || hasBis rest

/-- Rust's `period.split("bis")` (leftmost, non-overlapping matches of the
literal pattern), written as an accumulator recursion over the characters.
`splitBisAux acc l` prepends the already-read characters `acc` (reversed) to
the first emitted part. -/
def splitBisAux : List Char → List Char → List (List Char)
  | acc, b :: i :: s :: rest =>
    if b == 'b' && i == 'i' && s == 's' then
      acc.reverse :: splitBisAux [] rest
    else
      splitBisAux (b :: acc) (i :: s :: rest)
  | acc, c :: rest => splitBisAux (c :: acc) rest
  | acc, [] => [acc.reverse]

/-- `period.split("bis").collect::<Vec<_>>()` of `parse_period`. -/
def splitBis (l : List Char) : List (List Char) :=
  splitBisAux [] l

/-- `parse_period` of `src/main.rs` (lines 120-125): split the period string
on the literal token `"bis"`, take parts 0 and 1 (`parts.get(i).map_or("",
|s| s.trim())`), trim each, a missing part becoming the empty string. -/
def parse_period (period : String) : String × String :=
  let parts := splitBis period.data
  (String.mk (trimChars (parts.getD 0 [])),
   String.mk (trimChars (parts.getD 1 [])))

/-- The `ElevatorStatus` record of `src/main.rs` (lines 10-17). -/
structure ElevatorStatus where
  station : String
  event : String
  start_time : String
  end_time : String
  location : String
  info : String
deriving DecidableEq, Repr

/-- One `tr.traffic-information-infos` row of the fetched document.  Each
field models what the corresponding fixed selector query of `src/main.rs`
returns on this row: `none` when the selector matches nothing (or the
attribute is absent), `some s` when the first match's first text node (for
`periodText`, the concatenation of all text nodes) is `s`. -/
structure Row where
  /-- Models `row.value().attr("data-transportation")`. -/
  transportation : Option String
  /-- Models `row.value().attr("id")`. -/
  id : Option String
  /-- first text of `td.cell-line span.fw-bold`. -/
  lineBold : Option String
  /-- first text of `td.cell-event span.flag`. -/
  eventFlag : Option String
  /-- concatenated text of `td.cell-period` (`text().collect::<String>()`). -/
  periodText : Option String
  /-- first text of `td.cell-location`. -/
  locationText : Option String
deriving DecidableEq, Repr

/-- The parsed page, as far as `scrape_status` inspects it: the selected
`tr.traffic-information-infos` rows in document order, and the id-keyed info
panels: `infos` maps an element id to the first text of the first match of
the selector `#<id> p:last-child` over the whole document (absent key:
no match, which the code defaults to the empty string). -/
structure Document where
  rows : List Row
  infos : List (String × String)
deriving DecidableEq, Repr

/-- Whether a character may start a CSS identifier name (ASCII letters,
underscore, or any non-ASCII character; escapes are not modelled). -/
def isNmStart (c : Char) : Bool :=
  c.isAlpha || c == '_' || c.toNat ≥ 128

/-- Modelled behaviour of the scraper library on the runtime-built selector
string of `parse_elevator_status` (line 92): `Selector::parse("#" ++ id ++
" p:last-child")` succeeds exactly when the `#` is followed by the start of a
CSS identifier.  In particular it FAILS for the empty id (the `#` hash then
has no name: `"# p:last-child"` is not a valid selector), and for an id
starting with a digit or another non-name character.  (Ids whose later
characters would additionally invalidate the selector are not distinguished
here; they would only make more inputs abort.) -/
def identStartOk : List Char → Bool
  | [] => false
  | c :: rest =>
    if c == '-' then
      match rest with
      | [] => false
      | c2 :: _ => isNmStart c2 || c2 == '-'
    else isNmStart c

/-- `parse_elevator_status` of `src/main.rs` (lines 75-107).  The four
per-row fields each default to the empty string when their selector matches
nothing, and are trimmed.  The info field is found by building the selector
`#<row id> p:last-child` and searching the whole document; `Selector::parse`
of that string is fed to `.unwrap()`, so when the row's id (defaulted to `""`
by `unwrap_or("")`) does not start a valid selector the function PANICS —
modelled as `none`. -/
def parse_elevator_status (row : Row) (infos : List (String × String)) :
    Option ElevatorStatus :=
  let station := trimS (row.lineBold.getD "")
  let event := trimS (row.eventFlag.getD "")
  let period := trimS (row.periodText.getD "")
  let location := trimS (row.locationText.getD "")
  let rid := row.id.getD ""
  if identStartOk rid.data then
    let info := trimS ((List.lookup rid infos).getD "")
    let p := parse_period period
    some { station := station, event := event, start_time := p.1,
           end_time := p.2, location := location, info := info }
  else
    none

/-- `parse_schwebebahn_status` of `src/main.rs` (lines 109-118):
`format!("{}: {}", <event flag text>, <location text>)`, each part defaulting
to the empty string and trimmed. -/
def parse_schwebebahn_status (row : Row) : String :=
  trimS (row.eventFlag.getD "") ++ ": " ++ trimS (row.locationText.getD "")

/-- The row loop of `scrape_status` (lines 41-55): dispatch each row on its
`data-transportation` attribute (defaulted to `""`), `"elevator"` rows going
through `parse_elevator_status`, `"subway"` rows through
`parse_schwebebahn_status`, every other value skipped (`_ => continue`).
`none` propagates a panic of `parse_elevator_status`. -/
def scrapeRows (infos : List (String × String)) :
    List Row → Option (List String × List ElevatorStatus)
  | [] => some ([], [])
  | row :: rest =>
    let t := row.transportation.getD ""
    if t = "elevator" then
      (parse_elevator_status row infos).bind fun st =>
        (scrapeRows infos rest).map fun p => (p.1, st :: p.2)
    else if t = "subway" then
      (scrapeRows infos rest).map fun p =>
        (parse_schwebebahn_status row :: p.1, p.2)
    else
      scrapeRows infos rest

/-- The placeholder line entry pushed when no subway row was extracted
(line 58). -/
def linePlaceholder : String := "Keine aktuellen Störungen"

/-- The placeholder record pushed when no elevator row was extracted
(lines 62-69).  Note that the code populates BOTH `event` and `info`. -/
def elevatorPlaceholder : ElevatorStatus :=
  { station := "", event := "Keine Störungen", start_time := "",
    end_time := "", location := "", info := "Alle Aufzüge sind in Betrieb" }

/-- `scrape_status` of `src/main.rs` (lines 32-73) after the fetch: extract
both lists from the parsed document, then substitute the placeholders for
empty lists.  (The network fetch, the code's only `Err` source, is modelled
separately in `outcomeOf`; `Html::parse_document` never fails.) -/
def scrape_status (doc : Document) : Option (List String × List ElevatorStatus) :=
  match scrapeRows doc.infos doc.rows with
  | none => none
  | some (ls, es) =>
    some ((if ls = [] then [linePlaceholder] else ls),
          (if es = [] then [elevatorPlaceholder] else es))

/-- The `Status` record of `src/main.rs` (lines 19-25): the published
snapshot.  Timestamps are modelled as `Int` seconds since the epoch. -/
structure Status where
  schwebebahn : List String
  elevators : List ElevatorStatus
  last_updated : Option Int
deriving DecidableEq, Repr

/-- The snapshot `main` installs at startup (lines 137-144): both lists
empty, `last_updated = None`. -/
def initStatus : Status :=
  { schwebebahn := [], elevators := [], last_updated := none }

/-- Twenty, twenty-five, five minutes etc. expressed in the seconds of the
model (`chrono::Duration::minutes`). -/
def minutes (m : Int) : Int := m * 60

/-- `should_check` of `src/main.rs` (lines 178-184): a fetch is due exactly
when the last api request exists and `Utc::now() - time <
Duration::minutes(20)`. -/
def should_check (last_api_request : Option Int) (now : Int) : Bool :=
  match last_api_request with
  | some time => decide (now - time < minutes 20)
  | none => false

/-- How many upstream fetches one scheduler tick performs (the loop body of
lines 151-165 calls `scrape_status`, which fetches once, exactly when
`should_check` holds). -/
def tickFetches (last_api_request : Option Int) (now : Int) : Nat :=
  if should_check last_api_request now then 1 else 0

/-- What one scheduler tick did, as matched by the loop body (lines 151-163):
skipped (gate closed), hit a fetch error (`Err(e)`: logged only), or obtained
the two extracted lists (`Ok((schwebebahn, elevators))`). -/
inductive TickOutcome where
  | noFetch : TickOutcome
  | fetchErr : TickOutcome
  | success : List String → List ElevatorStatus → TickOutcome
deriving DecidableEq, Repr

/-- Whether a tick outcome is the `Ok` branch. -/
def isSuccessOutcome : TickOutcome → Bool
  | TickOutcome.success _ _ => true
  | _ => false

/-- The outcome of one tick, from the gate, the fetch result (`none` is a
network error — the only `Err` source of `scrape_status`, both `?` operators
being on the request) and the pure extraction.  The overall `none` is a panic
of `parse_elevator_status` aborting the scraper task. -/
def outcomeOf (last_api_request : Option Int) (now : Int)
    (fetched : Option Document) : Option TickOutcome :=
  if should_check last_api_request now then
    match fetched with
    | none => some TickOutcome.fetchErr
    | some doc =>
      match scrape_status doc with
      | none => none
      | some (ls, es) => some (TickOutcome.success ls es)
  else some TickOutcome.noFetch

/-- The state update of one tick outcome (lines 151-163): on `Ok` the loop
overwrites all three snapshot fields under one lock, stamping
`last_updated = Some(Utc::now())`; otherwise the snapshot is untouched. -/
def applyTick (st : Status) (now : Int) : TickOutcome → Status
  | TickOutcome.noFetch => st
  | TickOutcome.fetchErr => st
  | TickOutcome.success ls es =>
    { schwebebahn := ls, elevators := es, last_updated := some now }

/-- One full scheduler tick on the snapshot: `none` when the scraper task
panicked, otherwise the (possibly unchanged) snapshot. -/
def runCycle (st : Status) (last_api_request : Option Int) (now : Int)
    (fetched : Option Document) : Option Status :=
  (outcomeOf last_api_request now fetched).map (applyTick st now)

/-- The snapshot a successful cycle builds from a document at time `now`
(lines 154-158), `none` when extraction panics. -/
def buildSnapshot (doc : Document) (now : Int) : Option Status :=
  match scrape_status doc with
  | none => none
  | some (ls, es) =>
    some { schwebebahn := ls, elevators := es, last_updated := some now }

/-- The `status` endpoint handler of `src/main.rs` (lines 127-133): record
`now` into the request clock, return a clone of the current snapshot. -/
def status (_last_api_request : Option Int) (snapshot : Status) (now : Int) :
    Option Int × Status :=
  (some now, snapshot)

/-- Folding a sequence of timed tick outcomes over a snapshot: the snapshot
after the scheduler loop ran them all. -/
def runTrace (st : Status) : List (Int × TickOutcome) → Status
  | [] => st
  | e :: rest => runTrace (applyTick st e.1 e.2) rest

/-- Every snapshot the store successively holds along a sequence of timed
tick outcomes (the initial one included). -/
def snapshotsOf (st : Status) : List (Int × TickOutcome) → List Status
  | [] => [st]
  | e :: rest => st :: snapshotsOf (applyTick st e.1 e.2) rest

/-- Order on `last_updated` values: an absent timestamp precedes everything,
present ones compare as integers. -/
def lastLe : Option Int → Option Int → Prop
  | none, _ => True
  | some _, none => False
  | some a, some b => a ≤ b

instance : ∀ a b : Option Int, Decidable (lastLe a b)
  | none, _ => isTrue trivial
  | some _, none => isFalse id
  | some a, some b => inferInstanceAs (Decidable (a ≤ b))

/-- The snapshot the writer of one successful cycle installs (lines
155-158). -/
def newSnapshot (ls : List String) (es : List ElevatorStatus) (t : Int) :
    Status :=
  { schwebebahn := ls, elevators := es, last_updated := some t }

/-- Interleaving state for the store during one successful scrape cycle: the
`status` mutex (`lockHeld`), its guarded contents (`store`), how far the
writer of lines 155-158 has advanced (`writerPc`: 0 before `lock()`, 1-4
inside the critical section after each of lock acquisition and the three
field writes, 5 after the lock is dropped), and the snapshots completed
endpoint calls have observed (`reads`). -/
structure Sys where
  lockHeld : Bool
  store : Status
  writerPc : Nat
  reads : List Status
deriving DecidableEq, Repr

/-- The store before the cycle begins. -/
def initSys (old : Status) : Sys :=
  { lockHeld := false, store := old, writerPc := 0, reads := [] }

/-- Interleaved transitions during one successful scrape cycle installing
`(ls, es)` at time `t`.  The writer steps mirror lines 155-158 of
`src/main.rs`: it acquires the `status` mutex once, mutates the three fields
one by one while holding it, and releases it at the end of the match arm.  A
reader step is one `status` endpoint call (line 131): it can only run while
the mutex is free, and clones the whole guarded snapshot under the lock (the
endpoint's other lock, on the request clock, does not touch the snapshot). -/
inductive SysStep (ls : List String) (es : List ElevatorStatus) (t : Int) :
    Sys → Sys → Prop
  | acquire : ∀ st : Sys, st.writerPc = 0 → st.lockHeld = false →
      SysStep ls es t st { st with lockHeld := true, writerPc := 1 }
  | writeLines : ∀ st : Sys, st.writerPc = 1 →
      SysStep ls es t st
        { st with store := { st.store with schwebebahn := ls }, writerPc := 2 }
  | writeElevators : ∀ st : Sys, st.writerPc = 2 →
      SysStep ls es t st
        { st with store := { st.store with elevators := es }, writerPc := 3 }
  | writeUpdated : ∀ st : Sys, st.writerPc = 3 →
      SysStep ls es t st
        { st with store := { st.store with last_updated := some t },
                  writerPc := 4 }
  | release : ∀ st : Sys, st.writerPc = 4 →
      SysStep ls es t st { st with lockHeld := false, writerPc := 5 }
  | read : ∀ st : Sys, st.lockHeld = false →
      SysStep ls es t st { st with reads := st.store :: st.reads }

/-- The store contents as a function of how far the writer has advanced:
the old snapshot before any field write, then each field overwritten in
turn, the new snapshot once all three writes are done. -/
def storeAt (old : Status) (ls : List String) (es : List ElevatorStatus)
    (t : Int) : Nat → Status
  | 0 => old
  | 1 => old
  | 2 => { old with schwebebahn := ls }
  | 3 => { old with schwebebahn := ls, elevators := es }
  | _ => newSnapshot ls es t

/-- Inductive invariant of the cycle interleaving: the store content is
determined by the writer position, the lock is free only strictly outside
the critical section, and every completed read saw the old or the new
snapshot whole. -/
def SysInv (old : Status) (ls : List String) (es : List ElevatorStatus)
    (t : Int) (sys : Sys) : Prop :=
  sys.store = storeAt old ls es t sys.writerPc ∧
  sys.writerPc ≤ 5 ∧
  (sys.lockHeld = false → sys.writerPc = 0 ∨ sys.writerPc = 5) ∧
  (∀ r ∈ sys.reads, r = old ∨ r = newSnapshot ls es t)

/-- An elevator row carrying every cell but no `id` attribute: the input on
which `parse_elevator_status` panics. -/
def badRow : Row :=
  { transportation := some "elevator", id := none,
    lineBold := some "Hauptbahnhof", eventFlag := some "Ausfall",
    periodText := some "09:00 bis 17:00", locationText := some "Aufzug 2" }

/-- The elevator row of the spec's end-to-end fixture. -/
def fixtureElevatorRow : Row :=
  { transportation := some "elevator", id := some "elevator-1",
    lineBold := some "Hauptbahnhof", eventFlag := some "Ausfall",
    periodText := some "09:00 bis 17:00", locationText := some "Aufzug 2" }

/-- The subway row of the spec's end-to-end fixture. -/
def fixtureSubwayRow : Row :=
  { transportation := some "subway", id := none, lineBold := none,
    eventFlag := some "Verspätung", periodText := none,
    locationText := some "Vohwinkel" }

/-- The spec's end-to-end fixture document: one elevator row with a matching
info panel, one subway row. -/
def fixtureDoc : Document :=
  { rows := [fixtureElevatorRow, fixtureSubwayRow],
    infos := [("elevator-1", "Ersatzverkehr eingerichtet")] }

/-- The parsed fixture elevator record. -/
def fixtureElevator : ElevatorStatus :=
  { station := "Hauptbahnhof", event := "Ausfall", start_time := "09:00",
    end_time := "17:00", location := "Aufzug 2",
    info := "Ersatzverkehr eingerichtet" }

/-- A row whose mode discriminator is neither `"elevator"` nor `"subway"`:
per lines 41-55 it must contribute to neither output list. -/
def tramRow : Row :=
  { transportation := some "tram", id := some "tram-1",
    lineBold := some "Barmen", eventFlag := some "Umleitung",
    periodText := some "08:00 bis 11:00", locationText := some "Alter Markt" }

/-- Splitting a list free of the separator token emits it as the single
part (after the accumulated prefix). -/
theorem splitBisAux_no_bis : ∀ (l acc : List Char), hasBis l = false →
    splitBisAux acc l = [acc.reverse ++ l] := by
  intro l
  induction l with
  | nil => intro acc h; simp [splitBisAux]
  | cons c rest ih =>
    intro acc h
    cases rest with
    | nil => simp [splitBisAux]
    | cons d rest1 =>
      cases rest1 with
      | nil => simp [splitBisAux]
      | cons e rest2 =>
        have h2 : (isBisAt (c :: d :: e :: rest2) || hasBis (d :: e :: rest2))
            = false := h
        rw [Bool.or_eq_false_iff] at h2
        obtain ⟨hh, ht⟩ := h2
        have hcond : (c == 'b' && d == 'i' && e == 's') = false := hh
        simp only [splitBisAux, hcond, Bool.false_eq_true, if_false]
        rw [ih (c :: acc) ht]
        simp

/-- Splitting past the first separator occurrence: the separator-free prefix
becomes one part and splitting continues after the token. -/
theorem splitBisAux_append : ∀ (l acc t : List Char), hasBis l = false →
    splitBisAux acc (l ++ 'b' :: 'i' :: 's' :: t) =
      (acc.reverse ++ l) :: splitBisAux [] t := by
  intro l
  induction l with
  | nil => intro acc t h; simp [splitBisAux]
  | cons c rest ih =>
    intro acc t h
    have hbi : ('b' == 'i') = false := by decide
    have his : ('i' == 's') = false := by decide
    cases rest with
    | nil =>
      simp [splitBisAux, hbi, his]
    | cons d rest1 =>
      cases rest1 with
      | nil =>
        simp [splitBisAux, hbi, his]
      | cons e rest2 =>
        have h2 : (isBisAt (c :: d :: e :: rest2) || hasBis (d :: e :: rest2))
            = false := h
        rw [Bool.or_eq_false_iff] at h2
        obtain ⟨hh, ht⟩ := h2
        have hcond : (c == 'b' && d == 'i' && e == 's') = false := hh
        simp only [List.cons_append, splitBisAux, hcond, Bool.false_eq_true,
          if_false]
        rw [show (acc.reverse ++ c :: d :: e :: rest2)
              = ((c :: acc).reverse ++ d :: e :: rest2) from by simp]
        exact ih (c :: acc) t ht

/-- A separator-free string splits into itself alone. -/
theorem splitBis_no_bis (l : List Char) (h : hasBis l = false) :
    splitBis l = [l] := by
  unfold splitBis
  rw [splitBisAux_no_bis l [] h]
  simp

/-- A string with two separator occurrences splits into the prefix, the
middle part, and whatever the remainder splits into. -/
theorem splitBis_two (a b t : List Char) (ha : hasBis a = false)
    (hb : hasBis b = false) :
    splitBis (a ++ 'b' :: 'i' :: 's' :: (b ++ 'b' :: 'i' :: 's' :: t)) =
      a :: b :: splitBisAux [] t := by
  unfold splitBis
  rw [splitBisAux_append a [] _ ha, splitBisAux_append b [] t hb]
  simp

/-- C3: the period splitter satisfies the spec's three test vectors —
`parse_period "10:00 bis 14:00" = ("10:00", "14:00")`,
`parse_period "no-separator-text" = ("no-separator-text", "")` (no `"bis"`
separator present), `parse_period "" = ("", "")` — and in general, on any
input free of the literal token `"bis"`, it returns the trimmed input paired
with the empty string (it splits on the literal token, trims each part, and a
missing second part becomes the empty string). -/
theorem C3_parse_period_vectors :
    parse_period "10:00 bis 14:00" = ("10:00", "14:00") ∧
    parse_period "no-separator-text" = ("no-separator-text", "") ∧
    parse_period "" = ("", "") ∧
    ∀ s : String, hasBis s.data = false → parse_period s = (trimS s, "") := by
  refine ⟨by decide, by decide, by decide, ?_⟩
  intro s h
  unfold parse_period
  rw [splitBis_no_bis s.data h]
  simp [trimS, trimChars]

/-- Witness for C3: the separator-free clause applied at the concrete input
`"abc"`. -/
theorem C3_witness : parse_period "abc" = ("abc", "") := by
  have h := C3_parse_period_vectors.2.2.2 "abc" (by decide)
  rw [show trimS "abc" = "abc" from by decide] at h
  exact h

/-- C10: on any input whose character data contains the token `"bis"` at
least twice — written `a ++ "bis" ++ b ++ "bis" ++ t` with `a` the
separator-free prefix and `b` the separator-free middle — `parse_period`
returns exactly the trimmed prefix before the first occurrence paired with
the trimmed text between the first and second occurrence, discarding all
text after the second occurrence (`t` does not appear in the result).  The
separator is matched as a raw substring: `a`, `b`, `t` are arbitrary, with no
whitespace or word-boundary requirement around the token. -/
theorem C10_multiple_bis (s : String) (a b t : List Char)
    (hs : s.data = a ++ 'b' :: 'i' :: 's' :: (b ++ 'b' :: 'i' :: 's' :: t))
    (ha : hasBis a = false) (hb : hasBis b = false) :
    parse_period s = (String.mk (trimChars a), String.mk (trimChars b)) := by
  unfold parse_period
  rw [hs, splitBis_two a b t ha hb]
  simp

/-- Witness for C10 at the concrete input `"xbisybisz"`, where the token
occurs twice inside a single word: the text after the second occurrence is
discarded and no word boundary is required. -/
theorem C10_witness : parse_period "xbisybisz" = ("x", "y") := by
  have h := C10_multiple_bis "xbisybisz" ['x'] ['y'] ['z']
    (by decide) (by decide) (by decide)
  rw [show String.mk (trimChars ['x']) = "x" from by decide,
      show String.mk (trimChars ['y']) = "y" from by decide] at h
  exact h

/-- C1 (counterexample): on a page with no traffic-information rows the
published elevator list is the singleton placeholder record, but that record
does NOT have every field besides `info` empty — its `event` field is the
non-empty string `"Keine Störungen"` — refuting the claim that only `info`
is set in the elevator placeholder. -/
theorem C1_counterexample :
    scrape_status { rows := [], infos := [] } =
      some ([linePlaceholder], [elevatorPlaceholder]) ∧
    elevatorPlaceholder.event ≠ "" := by
  exact ⟨by decide, by decide⟩

/-- C1 (amended): if a successful scrape extracts zero line entries the
published line list is exactly `["Keine aktuellen Störungen"]`, and if it
extracts zero elevator entries the published elevator list is exactly one
`ElevatorStatus` whose `info` is `"Alle Aufzüge sind in Betrieb"`, whose
`event` is `"Keine Störungen"`, and whose `station`, `start_time`,
`end_time` and `location` are the empty string. -/
theorem C1_placeholder_substitution (doc : Document)
    (ls : List String) (es : List ElevatorStatus)
    (h : scrapeRows doc.infos doc.rows = some (ls, es)) :
    (ls = [] → ∃ es2, scrape_status doc = some ([linePlaceholder], es2)) ∧
    (es = [] → ∃ ls2, scrape_status doc = some (ls2, [elevatorPlaceholder])) ∧
    linePlaceholder = "Keine aktuellen Störungen" ∧
    elevatorPlaceholder.station = "" ∧
    elevatorPlaceholder.event = "Keine Störungen" ∧
    elevatorPlaceholder.start_time = "" ∧
    elevatorPlaceholder.end_time = "" ∧
    elevatorPlaceholder.location = "" ∧
    elevatorPlaceholder.info = "Alle Aufzüge sind in Betrieb" := by
  refine ⟨?_, ?_, rfl, rfl, rfl, rfl, rfl, rfl, rfl⟩
  · intro hls
    subst hls
    refine ⟨if es = [] then [elevatorPlaceholder] else es, ?_⟩
    simp [scrape_status, h]
  · intro hes
    subst hes
    refine ⟨if ls = [] then [linePlaceholder] else ls, ?_⟩
    simp [scrape_status, h]

/-- Witness for C1 (amended) at the empty document: both placeholder
substitutions fire. -/
theorem C1_witness :
    (∃ es2, scrape_status { rows := [], infos := [] } =
        some ([linePlaceholder], es2)) ∧
    (∃ ls2, scrape_status { rows := [], infos := [] } =
        some (ls2, [elevatorPlaceholder])) := by
  have h := C1_placeholder_substitution { rows := [], infos := [] } [] []
    (by decide)
  exact ⟨h.1 rfl, h.2.1 rfl⟩

/-- C2: `parse_elevator_status` is NOT total.  On an elevator row carrying
all four cells but no `id` attribute, the code builds the selector string
`"# p:last-child"` (the id defaulted to `""`), `Selector::parse` of which
fails, and the `.unwrap()` on it panics — modelled as `none` — instead of
degrading the `info` field to the empty string; a whole scrape over such a
row aborts likewise. -/
theorem C2_missing_id_panics :
    parse_elevator_status badRow [] = none ∧
    scrape_status { rows := [badRow], infos := [] } = none := by
  exact ⟨by decide, by decide⟩

/-- C4: a scheduler tick performs a fetch if and only if the request clock
holds a timestamp `t` with `now - t < 20` minutes (the code's strict `<` on
the trailing window); in particular an unset clock fetches nothing, a
request 25 minutes old (or exactly 20 minutes old) fetches nothing, and a
request 5 minutes old fetches exactly once. -/
theorem C4_refresh_gating (now : Int) :
    (∀ clock : Option Int,
      tickFetches clock now = 1 ↔
        ∃ t, clock = some t ∧ now - t < minutes 20) ∧
    tickFetches none now = 0 ∧
    tickFetches (some (now - minutes 25)) now = 0 ∧
    tickFetches (some (now - minutes 20)) now = 0 ∧
    tickFetches (some (now - minutes 5)) now = 1 := by
  refine ⟨?_, ?_, ?_, ?_, ?_⟩
  · intro clock
    cases clock with
    | none => simp [tickFetches, should_check]
    | some t =>
      by_cases hlt : now - t < minutes 20 <;>
        simp [tickFetches, should_check, hlt]
  · simp [tickFetches, should_check]
  · have h : ¬ (now - (now - minutes 25) < minutes 20) := by
      unfold minutes; omega
    simp [tickFetches, should_check, h]
    unfold minutes; omega
  · have h : ¬ (now - (now - minutes 20) < minutes 20) := by
      unfold minutes; omega
    simp [tickFetches, should_check, h]
  · have h : now - (now - minutes 5) < minutes 20 := by
      unfold minutes; omega
    simp [tickFetches, should_check, h]
    unfold minutes; omega

/-- Witness for C4: at time 100000, a request 5 minutes old triggers exactly
one fetch. -/
theorem C4_witness : tickFetches (some (100000 - minutes 5)) 100000 = 1 :=
  (C4_refresh_gating 100000).2.2.2.2

/-- C5: when the fetch fails (the only `Err` source of a cycle — both `?`
operators of `scrape_status` are on the HTTP request), the tick leaves the
shared snapshot completely unchanged: the cycle returns the previous
snapshot value, all three fields included. -/
theorem C5_error_atomicity (st : Status) (clock : Option Int) (now : Int) :
    runCycle st clock now none = some st := by
  unfold runCycle outcomeOf
  by_cases h : should_check clock now = true <;> simp [h, applyTick]

/-- Witness for C5 at a concrete state and time. -/
theorem C5_witness : runCycle initStatus (some 0) (minutes 5) none =
    some initStatus :=
  C5_error_atomicity initStatus (some 0) (minutes 5)

/-- C6: a row whose `data-transportation` discriminator is neither
`"elevator"` nor `"subway"` (an absent attribute is defaulted to `""` and so
also lands here) contributes nothing to either output list: deleting it from
the document leaves the whole scrape result unchanged, wherever it stood
among the rows. -/
theorem C6_unknown_discriminator_skipped
    (infos : List (String × String)) (pre rest : List Row) (row : Row)
    (h1 : row.transportation.getD "" ≠ "elevator")
    (h2 : row.transportation.getD "" ≠ "subway") :
    scrape_status { rows := pre ++ row :: rest, infos := infos } =
      scrape_status { rows := pre ++ rest, infos := infos } := by
  have key : ∀ pre2 : List Row, scrapeRows infos (pre2 ++ row :: rest) =
      scrapeRows infos (pre2 ++ rest) := by
    intro pre2
    induction pre2 with
    | nil =>
      simp only [List.nil_append, scrapeRows]
      rw [if_neg h1, if_neg h2]
    | cons r pre3 ih =>
      simp only [List.cons_append, scrapeRows, List.append_eq]
      rw [ih]
  simp only [scrape_status]
  rw [key pre]

/-- Witness for C6: dropping a `"tram"` row from a concrete two-row document
does not change the scrape. -/
theorem C6_witness :
    scrape_status { rows := [fixtureSubwayRow, tramRow], infos := [] } =
      scrape_status { rows := [fixtureSubwayRow], infos := [] } :=
  C6_unknown_discriminator_skipped [] [fixtureSubwayRow] [] tramRow
    (by decide) (by decide)

/-- C7: scraping is a pure function of the fetched markup — two successful
scrape cycles over the same parsed document, run at different times, build
snapshots equal in the line list and in the elevator list (element by
element, the lists being equal as lists), differing at most in
`last_updated`. -/
theorem C7_scrape_deterministic (doc : Document) (t1 t2 : Int)
    (s1 s2 : Status)
    (h1 : buildSnapshot doc t1 = some s1)
    (h2 : buildSnapshot doc t2 = some s2) :
    s1.schwebebahn = s2.schwebebahn ∧ s1.elevators = s2.elevators := by
  cases hs : scrape_status doc with
  | none =>
    have e1 : buildSnapshot doc t1 = none := by
      unfold buildSnapshot
      rw [hs]
    rw [e1] at h1
    exact absurd h1 (by simp)
  | some p =>
    obtain ⟨ls, es⟩ := p
    have e1 : buildSnapshot doc t1 = some
        { schwebebahn := ls, elevators := es, last_updated := some t1 } := by
      unfold buildSnapshot
      rw [hs]
    have e2 : buildSnapshot doc t2 = some
        { schwebebahn := ls, elevators := es, last_updated := some t2 } := by
      unfold buildSnapshot
      rw [hs]
    rw [e1] at h1
    rw [e2] at h2
    obtain rfl := Option.some.inj h1
    obtain rfl := Option.some.inj h2
    exact ⟨rfl, rfl⟩

/-- Witness for C7 on the end-to-end fixture document at times 1 and 2. -/
theorem C7_witness :
    (Status.mk ["Verspätung: Vohwinkel"] [fixtureElevator]
        (some 1)).schwebebahn =
      (Status.mk ["Verspätung: Vohwinkel"] [fixtureElevator]
        (some 2)).schwebebahn ∧
    (Status.mk ["Verspätung: Vohwinkel"] [fixtureElevator]
        (some 1)).elevators =
      (Status.mk ["Verspätung: Vohwinkel"] [fixtureElevator]
        (some 2)).elevators :=
  C7_scrape_deterministic fixtureDoc 1 2
    (Status.mk ["Verspätung: Vohwinkel"] [fixtureElevator] (some 1))
    (Status.mk ["Verspätung: Vohwinkel"] [fixtureElevator] (some 2))
    (by decide) (by decide)

/-- The `last_updated` order is reflexive. -/
theorem lastLe_refl (a : Option Int) : lastLe a a := by
  cases a with
  | none => trivial
  | some x => exact le_refl x

/-- The `last_updated` order extends along a later present timestamp. -/
theorem lastLe_mono (a : Option Int) (x y : Int) (h : lastLe a (some x))
    (hxy : x ≤ y) : lastLe a (some y) := by
  cases a with
  | none => trivial
  | some z => exact le_trans h hxy

/-- The first snapshot along a trace is the starting one. -/
theorem snapshotsOf_map_head (st : Status) (evs : List (Int × TickOutcome)) :
    ((snapshotsOf st evs).map Status.last_updated).head? =
      some st.last_updated := by
  cases evs with
  | nil => simp [snapshotsOf]
  | cons e rest => simp [snapshotsOf]

/-- One tick never moves `last_updated` backwards, provided its time is not
earlier than the current stamp. -/
theorem applyTick_lastLe (st : Status) (now : Int) (o : TickOutcome)
    (h : lastLe st.last_updated (some now)) :
    lastLe st.last_updated (applyTick st now o).last_updated := by
  cases o with
  | noFetch => exact lastLe_refl _
  | fetchErr => exact lastLe_refl _
  | success ls es => exact h

/-- A trace of ticks none of which hit the `Ok` branch leaves `last_updated`
exactly as it started. -/
theorem runTrace_no_success :
    ∀ (evs : List (Int × TickOutcome)) (st : Status),
      (∀ e ∈ evs, isSuccessOutcome e.2 = false) →
      (runTrace st evs).last_updated = st.last_updated := by
  intro evs
  induction evs with
  | nil => intro st _; rfl
  | cons e rest ih =>
    intro st h
    have he : isSuccessOutcome e.2 = false := h e (by simp)
    have ht : ∀ e2 ∈ rest, isSuccessOutcome e2.2 = false := by
      intro e2 m
      exact h e2 (by simp [m])
    simp only [runTrace]
    rw [ih (applyTick st e.1 e.2) ht]
    obtain ⟨now, o⟩ := e
    cases o with
    | noFetch => rfl
    | fetchErr => rfl
    | success ls es => exact absurd he (by simp [isSuccessOutcome])

/-- Along any trace whose tick times are non-decreasing, the successive
`last_updated` stamps form a non-decreasing chain (with `none` below every
stamp), provided the starting stamp does not exceed the first tick time. -/
theorem snapshots_chain :
    ∀ (evs : List (Int × TickOutcome)) (st : Status),
      List.Chain' (fun p q : Int × TickOutcome => p.1 ≤ q.1) evs →
      (∀ p ∈ evs.head?, lastLe st.last_updated (some p.1)) →
      List.Chain' lastLe ((snapshotsOf st evs).map Status.last_updated) := by
  intro evs
  induction evs with
  | nil =>
    intro st _ _
    simp [snapshotsOf]
  | cons e rest ih =>
    intro st hchain hbound
    obtain ⟨now, o⟩ := e
    have hb : lastLe st.last_updated (some now) := hbound (now, o) rfl
    rw [List.chain'_cons'] at hchain
    simp only [snapshotsOf, List.map_cons]
    rw [List.chain'_cons']
    constructor
    · intro b hb2
      rw [snapshotsOf_map_head] at hb2
      rw [Option.mem_def] at hb2
      obtain rfl := Option.some.inj hb2
      exact applyTick_lastLe st now o hb
    · refine ih (applyTick st now o) hchain.2 ?_
      intro q hq
      have hle : now ≤ q.1 := hchain.1 q hq
      cases o with
      | noFetch => exact lastLe_mono _ now q.1 hb hle
      | fetchErr => exact lastLe_mono _ now q.1 hb hle
      | success ls es => exact hle

/-- C8: the `last_updated` lifecycle — it is `none` at initialization and
stays `none` along any trace of ticks in which no cycle succeeds; every
successful cycle stamps it `some now`; once set it is never unset; and along
any trace with non-decreasing tick times, starting from the initial
snapshot, the successive `last_updated` values are monotonically
non-decreasing. -/
theorem C8_last_updated_lifecycle :
    initStatus.last_updated = none ∧
    (∀ evs : List (Int × TickOutcome),
      (∀ e ∈ evs, isSuccessOutcome e.2 = false) →
      (runTrace initStatus evs).last_updated = none) ∧
    (∀ (st : Status) (now : Int) (ls : List String)
        (es : List ElevatorStatus),
      (applyTick st now (TickOutcome.success ls es)).last_updated =
        some now) ∧
    (∀ (st : Status) (now : Int) (o : TickOutcome),
      st.last_updated ≠ none → (applyTick st now o).last_updated ≠ none) ∧
    (∀ evs : List (Int × TickOutcome),
      List.Chain' (fun p q : Int × TickOutcome => p.1 ≤ q.1) evs →
      List.Chain' lastLe
        ((snapshotsOf initStatus evs).map Status.last_updated)) := by
  refine ⟨rfl, ?_, ?_, ?_, ?_⟩
  · intro evs h
    exact runTrace_no_success evs initStatus h
  · intro st now ls es
    rfl
  · intro st now o h
    cases o with
    | noFetch => exact h
    | fetchErr => exact h
    | success ls es => simp [applyTick]
  · intro evs hchain
    refine snapshots_chain evs initStatus hchain ?_
    intro p _
    exact trivial

/-- Witness for C8 on concrete traces: two fetchless ticks leave the stamp
`none`, and a four-tick trace with two successes yields a non-decreasing
stamp chain. -/
theorem C8_witness :
    (runTrace initStatus
      [(5, TickOutcome.noFetch), (9, TickOutcome.fetchErr)]).last_updated =
        none ∧
    List.Chain' lastLe ((snapshotsOf initStatus
      [(3, TickOutcome.noFetch),
       (7, TickOutcome.success ["x"] []),
       (9, TickOutcome.fetchErr),
       (12, TickOutcome.success [] [elevatorPlaceholder])]).map
        Status.last_updated) := by
  constructor
  · exact C8_last_updated_lifecycle.2.1 _ (by decide)
  · exact C8_last_updated_lifecycle.2.2.2.2 _
      (List.Chain'.cons (by decide) (List.Chain'.cons (by decide)
        (List.Chain'.cons (by decide) (List.chain'_singleton _))))

/-- The invariant holds before the cycle starts. -/
theorem sysInv_init (old : Status) (ls : List String)
    (es : List ElevatorStatus) (t : Int) :
    SysInv old ls es t (initSys old) := by
  refine ⟨rfl, by simp [initSys], fun _ => Or.inl rfl, by simp [initSys]⟩

/-- Every interleaved transition preserves the invariant. -/
theorem sysInv_step (old : Status) (ls : List String)
    (es : List ElevatorStatus) (t : Int) (a b : Sys)
    (hinv : SysInv old ls es t a) (hstep : SysStep ls es t a b) :
    SysInv old ls es t b := by
  obtain ⟨hst, hle, hlk, hrd⟩ := hinv
  cases hstep with
  | acquire h0 hl =>
    refine ⟨?_, by norm_num, ?_, hrd⟩
    · show a.store = storeAt old ls es t 1
      rw [hst, h0]
      rfl
    · intro h
      simp at h
  | writeLines h1 =>
    refine ⟨?_, by norm_num, ?_, hrd⟩
    · show { a.store with schwebebahn := ls } = storeAt old ls es t 2
      rw [hst, h1]
      rfl
    · intro h
      rcases hlk h with h' | h' <;> rw [h1] at h' <;>
        exact absurd h' (by decide)
  | writeElevators h2 =>
    refine ⟨?_, by norm_num, ?_, hrd⟩
    · show { a.store with elevators := es } = storeAt old ls es t 3
      rw [hst, h2]
      rfl
    · intro h
      rcases hlk h with h' | h' <;> rw [h2] at h' <;>
        exact absurd h' (by decide)
  | writeUpdated h3 =>
    refine ⟨?_, by norm_num, ?_, hrd⟩
    · show { a.store with last_updated := some t } = storeAt old ls es t 4
      rw [hst, h3]
      rfl
    · intro h
      rcases hlk h with h' | h' <;> rw [h3] at h' <;>
        exact absurd h' (by decide)
  | release h4 =>
    refine ⟨?_, by norm_num, fun _ => Or.inr rfl, hrd⟩
    show a.store = storeAt old ls es t 5
    rw [hst, h4]
    rfl
  | read hl =>
    refine ⟨hst, hle, hlk, ?_⟩
    intro r hr
    rcases List.mem_cons.mp hr with hhead | htail
    · rcases hlk hl with h' | h'
      · rw [hhead, hst, h']
        exact Or.inl rfl
      · rw [hhead, hst, h']
        exact Or.inr rfl
    · exact hrd r htail

/-- The invariant holds in every reachable state of the cycle
interleaving. -/
theorem sysInv_reachable (old : Status) (ls : List String)
    (es : List ElevatorStatus) (t : Int) (sys : Sys)
    (h : Relation.ReflTransGen (SysStep ls es t) (initSys old) sys) :
    SysInv old ls es t sys := by
  induction h with
  | refl => exact sysInv_init old ls es t
  | tail _ hbc ih => exact sysInv_step old ls es t _ _ ih hbc

/-- C9: no torn reads — in every state reachable by interleaving endpoint
reads with the writer of one successful scrape cycle (which installs
`(ls, es)` stamped `t` field by field under the `status` mutex, while every
read clones the whole snapshot under the same mutex), every completed read
observed either the complete pre-cycle snapshot or the complete post-cycle
snapshot, never a mixture. -/
theorem C9_no_torn_reads (old : Status) (ls : List String)
    (es : List ElevatorStatus) (t : Int) (sys : Sys)
    (h : Relation.ReflTransGen (SysStep ls es t) (initSys old) sys) :
    ∀ r ∈ sys.reads, r = old ∨ r = newSnapshot ls es t :=
  (sysInv_reachable old ls es t sys h).2.2.2

/-- Witness for C9: a state reached by one endpoint read before the writer
starts; the read observed the (complete) pre-cycle snapshot. -/
theorem C9_witness :
    initStatus = initStatus ∨ initStatus = newSnapshot ["a"] [] 0 :=
  C9_no_torn_reads initStatus ["a"] [] 0
    { lockHeld := false, store := initStatus, writerPc := 0,
      reads := [initStatus] }
    (Relation.ReflTransGen.single (SysStep.read (initSys initStatus) rfl))
    initStatus (by simp)
